import Mathlib

/-!
Shallow embedding of the schema-mapping core of the rs_system_pipeline
repository: the text-normalization utilities of `src/utils/normalization.py`
and the table-assembly logic of `src/pipeline/table_builder.py`, together
with theorems settling the specification claims about them.

Strings are Lean `String`s, i.e. sequences of Unicode code points, exactly
as Python `str` values are.  The regular expressions of the source are
implemented directly as character-list scanners with the same
leftmost-match, ordered-alternative, greedy/lazy semantics that Python's
`re` module gives these concrete patterns.
-/

namespace RS

/-! ### Python string primitives -/

/-- The whitespace characters recognized by Python's `str.strip` and by the
regex class `\s` that occur in this development: ASCII whitespace plus the
no-break and ideographic spaces.  This is a partial model of Python's
Unicode whitespace set; every concrete string appearing in the theorems
below stays inside it. -/
def isPySpace (c : Char) : Bool :=
  c = ' ' || c = '\t' || c = '\n' || c = '\r' || c = '\x0b' || c = '\x0c' ||
  c = '\u00A0' || c = '　'

/-- Python `str.strip()`: drop leading and trailing whitespace. -/
def pyStrip (s : List Char) : List Char :=
  ((s.dropWhile isPySpace).reverse.dropWhile isPySpace).reverse

/-- Embedding of `startsWith s p`: does the text `s` begin with the pattern `p`. -/
def startsWith : List Char → List Char → Bool
  | _, [] => true
  | [], _ :: _ => false
  | c :: cs, d :: ds => c = d && startsWith cs ds

/-- Python's substring containment `p in s`. -/
def containsSub (s p : List Char) : Bool :=
  if startsWith s p then true
  else
    match s with
    | [] => false
    | _ :: rest => containsSub rest p

/-- The decimal digits of Python's regex class `\d` and of `int()` that
occur in this data: ASCII and their full-width forms.  (Python accepts
every Unicode decimal digit; other scripts' digits do not appear here.) -/
def isPyDigit (c : Char) : Bool :=
  ('0' ≤ c && c ≤ '9') || (0xFF10 ≤ c.toNat && c.toNat ≤ 0xFF19)

def digitVal (c : Char) : Nat :=
  if 0xFF10 ≤ c.toNat then c.toNat - 0xFF10 else c.toNat - 48

/-- Python `int()` on a nonempty string of decimal digits. -/
def digitsToNat (ds : List Char) : Nat :=
  ds.foldl (fun n c => 10 * n + digitVal c) 0

/-- Decimal rendering of a natural number, as Python's f-string `{n}` does. -/
def natDigits (n : Nat) : List Char := (toString n).data

/-! ### normalization.py — wareki (era year) conversion

`RE_WAREKI_SINGLE  = (明治|大正|昭和|平成|令和|M|T|S|H|R)(\d{1,2})年`
`RE_WAREKI_RANGE   = (明治|大正|昭和|平成|令和|M|T|S|H|R)(\d{1,2})[-~〜～](\d{1,2})年`
-/

/-- Embedding of `WAREKI_START_YEARS` (normalization.py): era name → its Gregorian year 1. -/
def WAREKI_START_YEARS : List (String × Nat) :=
  [("明治", 1868), ("M", 1868), ("大正", 1912), ("T", 1912),
   ("昭和", 1926), ("S", 1926), ("平成", 1989), ("H", 1989),
   ("令和", 2019), ("R", 2019)]

/-- The era alternation of the two wareki patterns, in pattern order. -/
def eraAlternatives : List (List Char) :=
  ["明治".data, "大正".data, "昭和".data, "平成".data, "令和".data,
   ['M'], ['T'], ['S'], ['H'], ['R']]

/-- Match the era alternation at the head of `s`; on success return the era
text as written and the count of characters it consumed. -/
def matchEra (s : List Char) : Option (List Char × Nat) :=
  match eraAlternatives.find? (fun e => startsWith s e) with
  | some e => some (e, e.length)
  | none => none

/-- The separator class `[-~〜～]` of `RE_WAREKI_RANGE`. -/
def isRangeSep (c : Char) : Bool := c = '-' || c = '~' || c = '〜' || c = '～'

/-- Match `(\d{1,2})` greedily, immediately followed by a range separator:
returns the captured digits and the remaining text after the separator. -/
def matchD12ThenSep (s : List Char) : Option (List Char × List Char) :=
  match s with
  | d1 :: d2 :: c :: rest =>
    if isPyDigit d1 && isPyDigit d2 && isRangeSep c then some ([d1, d2], rest)
    else if isPyDigit d1 && isRangeSep d2 then some ([d1], c :: rest)
    else none
  | [d1, d2] => if isPyDigit d1 && isRangeSep d2 then some ([d1], []) else none
  | _ => none

/-- Match `(\d{1,2})年` greedily at the head of `s`: returns the captured
digits and the remaining text after `年`. -/
def matchD12ThenNen (s : List Char) : Option (List Char × List Char) :=
  match s with
  | d1 :: d2 :: c :: rest =>
    if isPyDigit d1 && isPyDigit d2 && c = '年' then some ([d1, d2], rest)
    else if isPyDigit d1 && d2 = '年' then some ([d1], c :: rest)
    else none
  | [d1, d2] => if isPyDigit d1 && d2 = '年' then some ([d1], []) else none
  | _ => none

/-- Embedding of `replace_range` (normalization.py): the replacement computed for one
match of `RE_WAREKI_RANGE` at the head of `s`, together with how many
characters the match consumed.  The `元` tests mirror the source; they can
never fire because the pattern only captures decimal digits. -/
def matchWarekiRangeAt (s : List Char) : Option (List Char × Nat) :=
  match matchEra s with
  | none => none
  | some (era, eraLen) =>
    match matchD12ThenSep (s.drop eraLen) with
    | none => none
    | some (startDigits, r2) =>
      match matchD12ThenNen r2 with
      | none => none
      | some (endDigits, _) =>
        let consumed := eraLen + startDigits.length + 1 + endDigits.length + 1
        match WAREKI_START_YEARS.find? (fun kv => kv.1.data = era) with
        | none => some (s.take consumed, consumed)
        | some kv =>
          let sd := if startDigits = ['元'] then ['1'] else startDigits
          let ed := if endDigits = ['元'] then ['1'] else endDigits
          let a := kv.2 + digitsToNat sd - 1
          let b := kv.2 + digitsToNat ed - 1
          some (natDigits a ++ ['〜'] ++ natDigits b ++ ['年'], consumed)

/-- Embedding of `replace_single` (normalization.py): the replacement computed for one
match of `RE_WAREKI_SINGLE` at the head of `s`, with the consumed length. -/
def matchWarekiSingleAt (s : List Char) : Option (List Char × Nat) :=
  match matchEra s with
  | none => none
  | some (era, eraLen) =>
    match matchD12ThenNen (s.drop eraLen) with
    | none => none
    | some (digits, _) =>
      let consumed := eraLen + digits.length + 1
      match WAREKI_START_YEARS.find? (fun kv => kv.1.data = era) with
      | none => some (s.take consumed, consumed)
      | some kv =>
        let d := if digits = ['元'] then ['1'] else digits
        some (natDigits (kv.2 + digitsToNat d - 1) ++ ['年'], consumed)

/-- One pass of `re.sub` with an at-position matcher `m`: scan left to
right; on a match emit its replacement and resume after the consumed text.
Every successful match here consumes at least one character, so fuel equal
to the string length always suffices. -/
def subScanAux (m : List Char → Option (List Char × Nat)) :
    Nat → List Char → List Char
  | _, [] => []
  | 0, s => s
  | fuel + 1, c :: cs =>
    match m (c :: cs) with
    | some (rep, k) => rep ++ subScanAux m fuel (List.drop (k - 1) cs)
    | none => c :: subScanAux m fuel cs

def subScan (m : List Char → Option (List Char × Nat)) (s : List Char) : List Char :=
  subScanAux m s.length s

/-- Embedding of `convert_wareki_to_seireki` (normalization.py): substitute era-year
ranges first, then single era years, leaving everything else unchanged. -/
def convert_wareki_to_seireki (text : String) : String :=
  String.mk (subScan matchWarekiSingleAt (subScan matchWarekiRangeAt text.data))

/-! ### normalization.py — the remaining pipeline steps -/

/-- Embedding of `CIRCLE_NUMBER_MAP` together with the class `[①-⑳]` of `RE_LIST_MARKER`:
the circled digits U+2460‥U+2473 map to the decimal texts 1‥20. -/
def circleNumberValue (c : Char) : Option Nat :=
  if 0x2460 ≤ c.toNat && c.toNat ≤ 0x2473 then some (c.toNat - 0x245F) else none

/-- Embedding of `convert_circle_numbers` (normalization.py). -/
def convert_circle_numbers (s : List Char) : List Char :=
  s.flatMap (fun c =>
    match circleNumberValue c with
    | some n => natDigits n
    | none => [c])

/-- Partial model of `unicodedata.normalize('NFKC', ·)` at the level of
single code points: the full-width digits, Latin letters, tilde and
ideographic space fold to their ASCII forms; everything else occurring in
this development (CJK ideographs, kana, the long-vowel mark U+30FC, the
dash and wave-dash characters U+2010‥U+2015, U+2212, U+301C, ASCII) is
NFKC-stable and is left unchanged.  No string in the theorems below
contains a character outside this table's faithful range, and none
contains a sequence that NFKC would compose. -/
def nfkcChar (c : Char) : Char :=
  if c = '～' then '~'
  else if c = '　' then ' '
  else if 0xFF10 ≤ c.toNat && c.toNat ≤ 0xFF19 then Char.ofNat (c.toNat - 0xFF10 + 0x30)
  else if 0xFF21 ≤ c.toNat && c.toNat ≤ 0xFF3A then Char.ofNat (c.toNat - 0xFF21 + 0x41)
  else if 0xFF41 ≤ c.toNat && c.toNat ≤ 0xFF5A then Char.ofNat (c.toNat - 0xFF41 + 0x61)
  else if c = '（' then '('
  else if c = '）' then ')'
  else if c = '，' then ','
  else if c = '．' then '.'
  else if c = '－' then '-'
  else if c = '％' then '%'
  else if c = '＋' then '+'
  else c

def nfkc (s : List Char) : List Char := s.map nfkcChar

/-- Embedding of `HYPHEN_CHARS` (normalization.py): the dash variants unified to `-`;
the long-vowel mark `ー` is deliberately excluded. -/
def HYPHEN_CHARS : List Char :=
  ['‐', '‑', '‒', '–', '—', '―', '−', '─', '━', '～', '〜']

/-- Embedding of `normalize_hyphens` (normalization.py): each dash variant becomes the
ASCII hyphen-minus. -/
def normalize_hyphens (s : List Char) : List Char :=
  s.map (fun c => if HYPHEN_CHARS.contains c then '-' else c)

/-- The katakana class `[ァ-ヴ]` of `RE_KATAKANA_HYPHEN` (U+30A1‥U+30F4;
it does not include the long-vowel mark U+30FC). -/
def isKatakanaAv (c : Char) : Bool := 0x30A1 ≤ c.toNat && c.toNat ≤ 0x30F4

/-- Embedding of `fix_katakana_hyphen_errors` (normalization.py):
`re.sub` of `([ァ-ヴ])ー(?=[^ァ-ヴー]|$)` with `\1` — a long-vowel mark
after a katakana character is dropped when not followed by further
katakana or another long-vowel mark. -/
def matchKatakanaHyphenAt (s : List Char) : Option (List Char × Nat) :=
  match s with
  | c :: 'ー' :: rest =>
    if isKatakanaAv c then
      match rest with
      | [] => some ([c], 2)
      | d :: _ => if isKatakanaAv d || d = 'ー' then none else some ([c], 2)
    else none
  | _ => none

def fix_katakana_hyphen_errors (s : List Char) : List Char :=
  subScan matchKatakanaHyphenAt s

/-- Embedding of `load_hyphen_to_longvowel_map` (normalization.py): the dictionary is
read from `hyphen_to_longvowel_words.txt` next to the module; that file is
not present in the tree, so the loader returns the empty mapping. -/
def HYPHEN_TO_LONGVOWEL_MAP : List (String × String) := []

/-- Embedding of `fix_hyphen_to_longvowel` (normalization.py): skipped when the text has
no ASCII hyphen or the mapping is empty; otherwise each hyphen-typo word is
replaced by its long-vowel form, longest keys first. -/
def fix_hyphen_to_longvowel (text : String) : String :=
  if !(containsSub text.data ['-']) then text
  else if HYPHEN_TO_LONGVOWEL_MAP.isEmpty then text
  else
    (HYPHEN_TO_LONGVOWEL_MAP.mergeSort
        (fun a b => b.1.length ≤ a.1.length)).foldl
      (fun t kv => if containsSub t.data kv.1.data then t.replace kv.1 kv.2 else t)
      text

/-- Embedding of `re.sub(r'\s+', ' ', ·)`: collapse every whitespace run to one space.
The flag records whether the previous character belonged to a run whose
single space was already emitted. -/
def collapseSpacesAux : Bool → List Char → List Char
  | _, [] => []
  | inRun, c :: cs =>
    if isPySpace c then
      if inRun then collapseSpacesAux true cs else ' ' :: collapseSpacesAux true cs
    else c :: collapseSpacesAux false cs

def collapseSpaces (s : List Char) : List Char := collapseSpacesAux false s

/-- Embedding of `normalize_text` (normalization.py), on its string domain.  The
`neologdn` import fails in this tree (the module is not installed and is
an external collaborator), so `HAS_NEOLOGDN` is false and step 2 of the
pipeline is skipped whatever the `use_neologdn` argument is; the embedding
therefore needs no such parameter.  Non-string inputs, which the source
returns unchanged, are outside the string-typed domain. -/
def normalize_text (text : String) : String :=
  if text = "" ∨ pyStrip text.data = [] then text
  else
    let t1 := convert_circle_numbers text.data
    let t2 := nfkc t1
    let t3 := (convert_wareki_to_seireki (String.mk t2)).data
    let t4 := (fix_hyphen_to_longvowel (String.mk t3)).data
    let t5 := normalize_hyphens t4
    let t6 := fix_katakana_hyphen_errors t5
    let t7 := collapseSpaces t6
    String.mk (pyStrip t7)

/-! ### table_builder.py — cells and numeric parsing -/

/-- A spreadsheet cell as the table builders see it after pandas has read a
CSV: missing (NaN), a string, or a number.  Numbers are modelled as
rationals. -/
inductive Cell where
  | na : Cell
  | str : String → Cell
  | num : Rat → Cell
deriving DecidableEq

/-- Model of `pd.isna` on a cell. -/
def pd_isna : Cell → Bool
  | .na => true
  | _ => false

/-- Python `str()` on a cell value.  The exact float rendering is
immaterial to the claims; what matters is that it is a nonempty numeral. -/
def cellStr : Cell → String
  | .na => "nan"
  | .str s => s
  | .num q => if q.den = 1 then toString q.num else toString q.num ++ "/" ++ toString q.den

/-- Unsigned decimal fragment of Python `float()`: digits with at most one
decimal point, at least one digit in total.  Exponent forms, `inf`/`nan`
and underscores are not modelled; they occur nowhere in the claims. -/
def parseFloatUnsigned (s : List Char) : Option Rat :=
  let intPart := s.takeWhile isPyDigit
  let rest := s.dropWhile isPyDigit
  match rest with
  | [] => if intPart = [] then none else some (digitsToNat intPart)
  | '.' :: frac =>
    if frac.all isPyDigit && (intPart ≠ [] ∨ frac ≠ []) then
      some ((digitsToNat intPart : Rat) + (digitsToNat frac : Rat) / ((10 : Rat) ^ frac.length))
    else none
  | _ => none

def parseFloat : List Char → Option Rat
  | '-' :: rest => (parseFloatUnsigned rest).map (fun q => -q)
  | '+' :: rest => parseFloatUnsigned rest
  | s => parseFloatUnsigned s

/-- Embedding of `_parse_number` (table_builder.py): NaN parses to None,
numbers pass through, strings are cleaned of commas and `円` (single
characters, so removal is a filter) then stripped and parsed as floats;
unparseable text yields None rather than an error. -/
def parse_number : Cell → Option Rat
  | .na => none
  | .num q => some q
  | .str s => parseFloat (pyStrip (s.data.filter (fun c => !(c = ',' || c = '円'))))

/-! ### table_builder.py — build_budget_summary_table

The budget-year pattern is
`(\d{4})年度|令和(\d+)年度|令和元年度|平成(\d+)年度|-(\d{1,2})年度-`,
searched with Python leftmost-position, first-alternative semantics. -/

/-- Which alternative of the budget-year pattern matched, with its capture.
`gannen` is the group-less literal `令和元年度`. -/
inductive BudgetYearMatch where
  | g1 (n : Nat)
  | g2 (n : Nat)
  | gannen
  | g3 (n : Nat)
  | g4 (n : Nat)
deriving DecidableEq

/-- Alternative 1, `(\d{4})年度`, at the head of `s`. -/
def matchBY1 (s : List Char) : Option BudgetYearMatch :=
  match s with
  | a :: b :: c :: d :: rest =>
    if [a, b, c, d].all isPyDigit && startsWith rest "年度".data then
      some (.g1 (digitsToNat [a, b, c, d]))
    else none
  | _ => none

/-- Alternative 2, `令和(\d+)年度`: the maximal digit run after `令和`
followed by `年度` (shorter runs would abut a digit, never `年`). -/
def matchBY2 (s : List Char) : Option BudgetYearMatch :=
  if startsWith s "令和".data then
    let t := s.drop 2
    let ds := t.takeWhile isPyDigit
    if ds ≠ [] && startsWith (t.drop ds.length) "年度".data then
      some (.g2 (digitsToNat ds))
    else none
  else none

/-- Alternative 3, the literal `令和元年度`. -/
def matchBY3 (s : List Char) : Option BudgetYearMatch :=
  if startsWith s "令和元年度".data then some .gannen else none

/-- Alternative 4, `平成(\d+)年度`. -/
def matchBY4 (s : List Char) : Option BudgetYearMatch :=
  if startsWith s "平成".data then
    let t := s.drop 2
    let ds := t.takeWhile isPyDigit
    if ds ≠ [] && startsWith (t.drop ds.length) "年度".data then
      some (.g3 (digitsToNat ds))
    else none
  else none

/-- Alternative 5, `-(\d{1,2})年度-`, greedy in the digit count. -/
def matchBY5 (s : List Char) : Option BudgetYearMatch :=
  match s with
  | '-' :: d1 :: d2 :: r2 =>
    if isPyDigit d1 && isPyDigit d2 && startsWith r2 "年度-".data then
      some (.g4 (digitsToNat [d1, d2]))
    else if isPyDigit d1 && startsWith (d2 :: r2) "年度-".data then
      some (.g4 (digitsToNat [d1]))
    else none
  | _ => none

def matchBudgetYearAt (s : List Char) : Option BudgetYearMatch :=
  matchBY1 s <|> matchBY2 s <|> matchBY3 s <|> matchBY4 s <|> matchBY5 s

/-- Leftmost search for the budget-year pattern. -/
def searchBudgetYear : List Char → Option BudgetYearMatch
  | [] => none
  | c :: cs =>
    match matchBudgetYearAt (c :: cs) with
    | some m => some m
    | none => searchBudgetYear cs

/-- Embedding of `is_reiwa_era` (build_budget_summary_table, lines
271-273): join every column header and look for a Reiwa token anywhere in
the joined text. -/
def is_reiwa_era (columns : List String) : Bool :=
  let all := String.join columns
  containsSub all.data "令和元年度".data || containsSub all.data "令和".data

/-- Embedding of the year-extraction branch of `build_budget_summary_table`
(lines 280-310), including the bare `-NN年度-` heuristic: `NN ≥ 20` is
always Heisei; otherwise the table-wide `is_reiwa_era` flag decides. -/
def budget_year_of_col (is_reiwa : Bool) (col : String) : Option Nat :=
  match searchBudgetYear col.data with
  | none => none
  | some (.g1 n) => some n
  | some (.g2 n) => some (2018 + n)
  | some m =>
    if containsSub col.data "令和元年度".data then some 2019
    else
      match m with
      | .g3 n => some (1988 + n)
      | .g4 n =>
        if n ≥ 20 then some (1988 + n)
        else if is_reiwa then
          if n = 1 then some 2019 else some (2018 + n)
        else some (1988 + n)
      | _ => none

/-- Embedding of the budget-item classification chain of
`build_budget_summary_table` (lines 315-331): which of the eight budget
fields a year-bearing column belongs to. -/
def budgetFieldOfCol (col : String) : Option String :=
  let has := fun (p : String) => containsSub col.data p.data
  if has "当初予算" && !has "補正" then some "当初予算"
  else if has "補正予算" && !has "次" then some "補正予算"
  else if has "前年度から繰越し" || (has "前年度" && has "繰越") then some "前年度から繰越し"
  else if has "翌年度へ繰越し" || (has "翌年度" && has "繰越") then some "翌年度へ繰越し"
  else if has "予備費等" || has "予備費" then some "予備費等"
  else if has "執行額" && !has "割合" then some "執行額"
  else if has "執行率" || (has "執行" && has "%") then some "執行率"
  else if col = "計" || (has "予算" && has "計" && !has "内訳") then some "計"
  else none

/-- Insertion-ordered update of one year's field dictionary: Python dict
assignment, overwriting in place. -/
def upsertField (fields : List (String × String)) (k v : String) :
    List (String × String) :=
  match fields with
  | [] => [(k, v)]
  | (k1, v1) :: rest =>
    if k1 = k then (k, v) :: rest else (k1, v1) :: upsertField rest k v

/-- Python's `if budget_year not in budget_col_map: budget_col_map[y] = {}`:
append the year with an empty field dictionary when absent. -/
def ensureYear (m : List (Nat × List (String × String))) (y : Nat) :
    List (Nat × List (String × String)) :=
  if m.any (fun p => p.1 = y) then m else m ++ [(y, [])]

def setYearField (m : List (Nat × List (String × String))) (y : Nat)
    (k v : String) : List (Nat × List (String × String)) :=
  m.map (fun p => if p.1 = y then (p.1, upsertField p.2 k v) else p)

/-- One step of the column-mapping loop of `build_budget_summary_table`
(lines 276-331): a column with a recognized budget year always registers
the year; the field is stored only when it classifies. -/
def addBudgetCol (is_reiwa : Bool) (m : List (Nat × List (String × String)))
    (col : String) : List (Nat × List (String × String)) :=
  match budget_year_of_col is_reiwa col with
  | none => m
  | some y =>
    let m1 := ensureYear m y
    match budgetFieldOfCol col with
    | none => m1
    | some k => setYearField m1 y k col

/-- Embedding of `budget_col_map`: the insertion-ordered map from detected
budget year to its field-to-column dictionary, built in one pass over the
headers. -/
def budget_col_map (columns : List String) :
    List (Nat × List (String × String)) :=
  columns.foldl (addBudgetCol (is_reiwa_era columns)) []

/-- Output column name for each budget field (the `record[...]` keys of
lines 368-407). -/
def budgetOutName (k : String) : String :=
  if k = "当初予算" then "当初予算(合計)"
  else if k = "補正予算" then "補正予算(合計)"
  else if k = "前年度から繰越し" then "前年度からの繰越し(合計)"
  else if k = "翌年度へ繰越し" then "翌年度へ繰越し(合計)"
  else if k = "予備費等" then "予備費等(合計)"
  else if k = "執行額" then "執行額(合計)"
  else if k = "執行率" then "執行率"
  else "計(歳出予算現額合計)"

/-- One output record of `build_budget_summary_table`, restricted to the
fields the claims speak about: the record key (予算事業ID, 予算年度) and
the numeric budget fields written by the per-year loop.  The common
per-row prefix (project name, ministry hierarchy, 会計区分, …) is copied
into every candidate record independently of the emission decision and is
omitted from the model. -/
structure BudgetRecord where
  business_id : Nat
  budget_year : Nat
  fields : List (String × Option Rat)
deriving DecidableEq

/-- The per-year field loop of lines 366-409: every mapped column is parsed
with `_parse_number` and stored under its output name.  All eight branches
of the source treat their field identically, so the loop is a map. -/
def budgetRecordFields (row : String → Cell) (cols : List (String × String)) :
    List (String × Option Rat) :=
  cols.map (fun kc => (budgetOutName kc.1, parse_number (row kc.2)))

/-- Embedding of `has_data` (lines 366-409): true exactly when some mapped
field of the year parses to a present, nonzero number. -/
def budgetHasData (row : String → Cell) (cols : List (String × String)) : Bool :=
  cols.any (fun kc =>
    match parse_number (row kc.2) with
    | some v => v ≠ 0
    | none => false)

/-- Embedding of `build_budget_summary_table` (table_builder.py, lines
250-417): for each row (in `range(len(df))` order) and each detected
budget year (in insertion order), a record is appended only when
`has_data` holds. -/
def build_budget_summary_table (columns : List String)
    (rows : List (String → Cell)) (ids : Nat → Nat) : List BudgetRecord :=
  let bmap := budget_col_map columns
  (List.range rows.length).flatMap (fun i =>
    match rows.get? i with
    | none => []
    | some row =>
      bmap.filterMap (fun yc =>
        if budgetHasData row yc.2 then
          some { business_id := ids i, budget_year := yc.1,
                 fields := budgetRecordFields row yc.2 }
        else none))

def budgetColumnsW : List String := ["事業名", "2022年度-当初予算"]

def budgetRowW : String → Cell :=
  fun h => if h = "2022年度-当初予算" then Cell.str "5" else Cell.na

def idsW : Nat → Nat := fun i => i + 1

/-- Resolution rule for a bare `-NN年度-` token as the specification words
it: a value of 20 or more is a Heisei offset, and a smaller value follows
whichever era token — Reiwa or Heisei — is dominant (more frequent) among
the table's headers.  This definition follows the spec's words, to be
compared with the code's `budget_year_of_col`. -/
def claimed_bare_year_resolution (columns : List String) (n : Nat) : Nat :=
  if n ≥ 20 then 1988 + n
  else
    let reiwaCount := (columns.filter (fun c => containsSub c.data "令和".data)).length
    let heiseiCount := (columns.filter (fun c => containsSub c.data "平成".data)).length
    if heiseiCount > reiwaCount then 1988 + n
    else if n = 1 then 2019 else 2018 + n

/-- A header set dominated by Heisei tokens (two 平成 to one 令和) that
still contains a Reiwa token. -/
def mixedEraColumns : List String :=
  ["平成30年度-当初予算", "平成31年度-執行額", "令和2年度-当初予算", "-05年度-当初予算"]

/-! ### table_builder.py — build_expenditure_table -/

/-- Detection of the 2014 (legacy) header generation (lines 449-454): some
column of the table contains both `支出先上位` and `グループ`. -/
def is_2014_format (columns : List String) : Bool :=
  columns.any (fun c =>
    containsSub c.data "支出先上位".data && containsSub c.data "グループ".data)

/-- Search of `-(\d+)$` (line 470): the maximal trailing digit run,
nonempty and preceded by a hyphen. -/
def trailingNum (s : List Char) : Option (List Char) :=
  let r := s.reverse
  let ds := r.takeWhile isPyDigit
  if ds ≠ [] && (r.drop ds.length).head? = some '-' then some ds.reverse
  else none

/-- Field classification for 2014-generation expenditure columns
(lines 481-493). -/
def expenditureField2014 (col : String) : Option String :=
  let has := fun (p : String) => containsSub col.data p.data
  if has "-番号-" then some "番号"
  else if has "-支出先-" then some "支出先名"
  else if has "-業務概要-" then some "業務概要"
  else if has "-支出額" || has "-支出額（百万円）-" then some "支出額"
  else if has "-入札者数-" then some "入札者数"
  else if has "-落札率-" then some "落札率"
  else none

def isUpperAz (c : Char) : Bool := 'A' ≤ c && c ≤ 'Z'

/-- The continuation `-([A-Z])\.支払先-(\d+)-` of the 2015+ pattern
`pattern_2015_on` at the head of `s`: block letter and entry digits. -/
def match2015Cont (s : List Char) : Option (Char × List Char) :=
  match s with
  | '-' :: b :: '.' :: rest =>
    if isUpperAz b && startsWith rest "支払先-".data then
      let t := rest.drop 4
      let ds := t.takeWhile isPyDigit
      if ds ≠ [] && (t.drop ds.length).head? = some '-' then some (b, ds)
      else none
    else none
  | _ => none

/-- The lazy gap `.*?` between `支出先上位` and the continuation: try the
continuation at each offset, shortest gap first; `.` does not cross a
newline. -/
def search2015From (s : List Char) : Option (Char × List Char) :=
  match match2015Cont s with
  | some r => some r
  | none =>
    match s with
    | [] => none
    | c :: rest => if c = '\n' then none else search2015From rest

/-- Leftmost search of `pattern_2015_on =
支出先上位.*?-([A-Z])\.支払先-(\d+)-` (line 441). -/
def search2015 : List Char → Option (Char × List Char)
  | [] => none
  | c :: cs =>
    if startsWith (c :: cs) "支出先上位".data then
      match search2015From ((c :: cs).drop 5) with
      | some r => some r
      | none => search2015 cs
    else search2015 cs

/-- Field classification for 2015+ expenditure columns (lines 509-527). -/
def expenditureField2015 (col : String) : Option String :=
  let has := fun (p : String) => containsSub col.data p.data
  if has "-支出先" && !has "法人" then some "支出先名"
  else if has "-法人番号" then some "法人番号"
  else if has "-業務概要" then some "業務概要"
  else if has "-支出額（百万円）" || has "-支出額(百万円)" then some "支出額"
  else if has "-契約方式" then some "契約方式等"
  else if has "-入札者数" || has "-入札者数（応募者数）" then some "入札者数"
  else if has "-落札率" then some "落札率"
  else if has "-一者応札・一者応募又は競争性のない随意契約となった理由及び改善策" then
    some "一者応札理由（詳細）"
  else if has "-一者応札" && has "理由" then some "一者応札理由"
  else none

/-- Per-column key and field under the 2014 generation (lines 464-493): the
group key is `GROUP-<num>`; a section column with a trailing number but no
recognized field still creates its (empty) group. -/
def expenditure_key_field_2014 (col : String) : Option (String × Option String) :=
  if !containsSub col.data "支出先上位".data then none
  else if !containsSub col.data "グループ".data then none
  else
    match trailingNum col.data with
    | none => none
    | some ds => some ("GROUP-" ++ String.mk ds, expenditureField2014 col)

/-- Per-column key and field under the 2015+ generation (lines 494-527):
the group key is `<Block>-<num>`. -/
def expenditure_key_field_2015 (col : String) : Option (String × Option String) :=
  if !containsSub col.data "支出先上位".data then none
  else
    match search2015 col.data with
    | none => none
    | some (b, ds) => some (String.mk [b] ++ "-" ++ String.mk ds, expenditureField2015 col)

def ensureKey (g : List (String × List (String × String))) (k : String) :
    List (String × List (String × String)) :=
  if g.any (fun p => p.1 = k) then g else g ++ [(k, [])]

def setKeyField (g : List (String × List (String × String))) (k field col : String) :
    List (String × List (String × String)) :=
  g.map (fun p => if p.1 = k then (p.1, upsertField p.2 field col) else p)

/-- One step of the column-grouping loop of `build_expenditure_table`: a
classified column registers its group key, and its field when one was
recognized. -/
def addExpenditureCol (classify : String → Option (String × Option String))
    (g : List (String × List (String × String))) (col : String) :
    List (String × List (String × String)) :=
  match classify col with
  | none => g
  | some (k, f) =>
    let g1 := ensureKey g k
    match f with
    | none => g1
    | some field => setKeyField g1 k field col

/-- The grouping pass with an explicit per-column classifier. -/
def expenditure_col_groups_with (classify : String → Option (String × Option String))
    (columns : List String) : List (String × List (String × String)) :=
  columns.foldl (addExpenditureCol classify) []

/-- Embedding of the grouping pass of `build_expenditure_table` (lines
446-527): the generation flag is computed once per table and selects which
generation's patterns classify every column. -/
def expenditure_col_groups (columns : List String) :
    List (String × List (String × String)) :=
  expenditure_col_groups_with
    (fun col =>
      if is_2014_format columns then expenditure_key_field_2014 col
      else expenditure_key_field_2015 col)
    columns

/-- Stable insertion sort, modelling Python `sorted` on the group items;
group keys are unique, so only the key order matters. -/
def insertSorted (le : α → α → Bool) (x : α) : List α → List α
  | [] => [x]
  | y :: ys => if le y x then y :: insertSorted le x ys else x :: y :: ys

def pySorted (le : α → α → Bool) (l : List α) : List α :=
  l.foldl (fun acc x => insertSorted le x acc) []

/-- Python `key.split('-')` on the two-part group keys built above (block
letters and digit runs never contain a hyphen). -/
def splitKeyDash (k : List Char) : String × String :=
  (String.mk (k.takeWhile (fun c => c ≠ '-')),
   String.mk ((k.dropWhile (fun c => c ≠ '-')).drop 1))

/-- Dictionary lookup in a field map. -/
def lookupField (fields : List (String × String)) (k : String) : Option String :=
  (fields.find? (fun p => p.1 = k)).map (fun p => p.2)

/-- One output record of `build_expenditure_table` (lines 551-584); the
common per-row prefix is copied independently of the emission decision and
is omitted, as in `BudgetRecord`. -/
structure ExpenditureRecord where
  business_id : Nat
  block : String
  entry_num : Nat
  name : Cell
  houjin_bangou : Option Cell
  gyoumu_gaiyou : Option Cell
  shishutsu_gaku : Option (Option Rat)
  keiyaku_houshiki : Option Cell
  nyuusatsusha_suu : Option (Option Rat)
  rakusatsu_ritsu : Option (Option Rat)
  issha_riyuu : Option Cell
  issha_riyuu_shousai : Option Cell
deriving DecidableEq

/-- The per-group emission decision and record of lines 540-584: skip when
the group has no recipient-name column, or the recipient cell is NaN, or
it strips to `N/A`, `-` or the empty string. -/
def expenditureRecordFor (row : String → Cell) (bid : Nat)
    (key : String) (fields : List (String × String)) : Option ExpenditureRecord :=
  match lookupField fields "支出先名" with
  | none => none
  | some nameCol =>
    let nm := row nameCol
    let stripped := pyStrip (cellStr nm).data
    if pd_isna nm || stripped = "N/A".data || stripped = "-".data || stripped = [] then
      none
    else
      let kp := splitKeyDash key.data
      some { business_id := bid
             block := kp.1
             entry_num := digitsToNat kp.2.data
             name := nm
             houjin_bangou := (lookupField fields "法人番号").map row
             gyoumu_gaiyou := (lookupField fields "業務概要").map row
             shishutsu_gaku := (lookupField fields "支出額").map (fun c => parse_number (row c))
             keiyaku_houshiki := (lookupField fields "契約方式等").map row
             nyuusatsusha_suu := (lookupField fields "入札者数").map (fun c => parse_number (row c))
             rakusatsu_ritsu := (lookupField fields "落札率").map (fun c => parse_number (row c))
             issha_riyuu := (lookupField fields "一者応札理由").map row
             issha_riyuu_shousai := (lookupField fields "一者応札理由（詳細）").map row }

/-- The row loop of `build_expenditure_table` (lines 529-584) with an
explicit classifier: for each row, the groups are walked in sorted key
order and qualifying records are appended. -/
def build_expenditure_table_with (classify : String → Option (String × Option String))
    (columns : List String) (rows : List (String → Cell)) (ids : Nat → Nat) :
    List ExpenditureRecord :=
  let groups := pySorted (fun a b => a.1 ≤ b.1) (expenditure_col_groups_with classify columns)
  (List.range rows.length).flatMap (fun i =>
    match rows.get? i with
    | none => []
    | some row => groups.filterMap (fun kf => expenditureRecordFor row (ids i) kf.1 kf.2))

/-- Embedding of `build_expenditure_table` (table_builder.py, lines
419-588): the generation is detected once from the headers, then only that
generation's patterns are applied. -/
def build_expenditure_table (columns : List String) (rows : List (String → Cell))
    (ids : Nat → Nat) : List ExpenditureRecord :=
  build_expenditure_table_with
    (fun col =>
      if is_2014_format columns then expenditure_key_field_2014 col
      else expenditure_key_field_2015 col)
    columns rows ids

def expColumnsW : List String :=
  ["事業名", "支出先上位１０者リスト-A.支払先-1-支出先"]

def expRowW : String → Cell :=
  fun h =>
    if h = "支出先上位１０者リスト-A.支払先-1-支出先" then Cell.str " 株式会社X "
    else Cell.na

def expRecW : ExpenditureRecord :=
  { business_id := 1, block := "A", entry_num := 1, name := Cell.str " 株式会社X ",
    houjin_bangou := none, gyoumu_gaiyou := none, shishutsu_gaku := none,
    keiyaku_houshiki := none, nyuusatsusha_suu := none, rakusatsu_ritsu := none,
    issha_riyuu := none, issha_riyuu_shousai := none }

/-! ### table_builder.py — process_year_data and entity-ID assignment

`process_year_data` walks the year's CSV files inside a `try/except`; the
shared class counter `TableBuilder.global_business_id_counter` is reset to
1 at line 1908 before the loop.  What pandas and the twelve builders
compute from one file is external input to this control flow, so a file is
abstracted by its observable behavior; the loop, the counters, the ID
assignment and the accumulators are translated exactly. -/

/-- One source CSV file as `process_year_data` observes it: reading it
raises; it is empty (`continue`); its sheet type is unknown (`continue`);
it is a segment sheet (no builders run, still counted as a success); it is
a review sheet with `nrows` rows whose builders append the output bundle
`contrib`; or it is a review sheet whose builders raise after the
ID-assignment loop, having appended `contrib` so far.  The ID-assignment
loop itself (lines 1960-1963) is pure Python over `range(len(df))` and
cannot raise, so a failure in the review branch happens after the IDs
were taken, and a failure before it (read, sheet-type or common-column
extraction) is a `read_error`. -/
inductive SourceFile (α : Type) where
  | read_error : SourceFile α
  | empty : SourceFile α
  | unknown : SourceFile α
  | segment : SourceFile α
  | review (nrows : Nat) (contrib : α) : SourceFile α
  | review_error (nrows : Nat) (contrib : α) : SourceFile α

/-- The state threaded through the file loop: the class-level ID counter,
the accumulated per-file output bundles, the per-file `row_business_ids`
values (in row order), and the success and failure counters. -/
structure BatchState (α : Type) where
  counter : Nat
  acc : List α
  ids : List (List Nat)
  success : Nat
  failed : Nat

/-- The ID-assignment loop of lines 1960-1963: each of the `n` rows
receives the current counter value, which is then incremented. -/
def assign_row_ids (counter n : Nat) : List Nat × Nat :=
  match n with
  | 0 => ([], counter)
  | m + 1 =>
    let rest := assign_row_ids (counter + 1) m
    (counter :: rest.1, rest.2)

/-- One iteration of the file loop (lines 1937-2029) with its
`try/except`: a raising file increments `failed` and leaves the state
otherwise as it stood when the exception propagated; empty and unknown
files are skipped without touching either counter; review sheets assign
IDs to every row and append their builders' output. -/
def process_file (st : BatchState α) (f : SourceFile α) : BatchState α :=
  match f with
  | .read_error => { st with failed := st.failed + 1 }
  | .empty => st
  | .unknown => st
  | .segment => { st with success := st.success + 1 }
  | .review n c =>
    let r := assign_row_ids st.counter n
    { st with counter := r.2, ids := st.ids ++ [r.1], acc := st.acc ++ [c],
              success := st.success + 1 }
  | .review_error n c =>
    let r := assign_row_ids st.counter n
    { st with counter := r.2, ids := st.ids ++ [r.1], acc := st.acc ++ [c],
              failed := st.failed + 1 }

/-- Embedding of `process_year_data` (lines 1883-2104): whatever value
`_counter0` the class-level counter carried when the batch starts, line
1908 overwrites it with 1; then the files are processed in order and the
function always returns with its counters. -/
def process_year_data (_counter0 : Nat) (files : List (SourceFile α)) :
    BatchState α :=
  files.foldl process_file
    { counter := 1, acc := [], ids := [], success := 0, failed := 0 }

/-- Row count a file contributes to the ID-assignment loop. -/
def reviewRows : SourceFile α → Nat
  | .review n _ => n
  | .review_error n _ => n
  | _ => 0

def totalReviewRows (files : List (SourceFile α)) : Nat :=
  (files.map reviewRows).sum

/-- Output bundle a file leaves in the accumulators (a file that raises
after some builders ran leaves what it appended so far). -/
def contribOf : SourceFile α → Option α
  | .review _ c => some c
  | .review_error _ c => some c
  | _ => none

/-- Files counted by the `except` branch. -/
def isFailedFile : SourceFile α → Bool
  | .read_error => true
  | .review_error _ _ => true
  | _ => false

/-- Files that reach `success_count += 1`. -/
def isSucceededFile : SourceFile α → Bool
  | .segment => true
  | .review _ _ => true
  | _ => false

/-- The per-file ID lists produced from a given starting counter. -/
def idsFrom (c : Nat) : List (SourceFile α) → List (List Nat)
  | [] => []
  | .review n _ :: fs => List.range' c n :: idsFrom (c + n) fs
  | .review_error n _ :: fs => List.range' c n :: idsFrom (c + n) fs
  | _ :: fs => idsFrom c fs

/-! ### Concrete evaluation checks -/

example : convert_wareki_to_seireki "平成25年" = "2013年" := by decide

example : convert_wareki_to_seireki "令和元年" = "令和元年" := by decide

example : convert_wareki_to_seireki "平成25〜28年" = "2013〜2016年" := by decide

example : convert_wareki_to_seireki "H25~28年" = "2013〜2016年" := by decide

example : convert_wareki_to_seireki "R2年" = "2020年" := by decide

example : normalize_text "平成5−6年" = "平成5-6年" := by decide

example : normalize_text "平成5-6年" = "1993-1994年" := by decide

example : normalize_text "①サービスー" = "1サービス" := by decide

example : normalize_text "全角　　空白" = "全角 空白" := by decide

example : parse_number (.str "1,234円") = some 1234 := by decide

example : parse_number (.str " -42 ") = some (-42) := by decide

example : parse_number (.str "約12") = none := by decide

example : parse_number .na = none := by decide

example : budget_year_of_col true "-05年度-当初予算" = some 2023 := by decide

example : budget_year_of_col false "-05年度-当初予算" = some 1993 := by decide

example : budget_year_of_col false "-25年度-当初予算" = some 2013 := by decide

example : budget_year_of_col false "2022年度当初予算" = some 2022 := by decide

example : budget_year_of_col false "令和元年度補正予算" = some 2019 := by decide

/-! ### Claims about the text normalizer -/

/-- C3: `convert_wareki_to_seireki` converts `平成25年` to `2013年` and the
range `平成25〜28年` to `2013〜2016年` as claimed, but it returns `令和元年`
unchanged instead of the claimed `2019年`: the group `(\d{1,2})` of
`RE_WAREKI_SINGLE` can only capture decimal digits, never `元`, so the
`元`-handling branch of `replace_single` — and the function's own
docstring example `令和元年 → 2019年` — is unreachable.  This theorem
evaluates the embedded code at the failing input. -/
theorem convert_wareki_to_seireki_gannen_bug :
    convert_wareki_to_seireki "平成25年" = "2013年" ∧
    convert_wareki_to_seireki "令和元年" = "令和元年" ∧
    convert_wareki_to_seireki "令和元年" ≠ "2019年" ∧
    convert_wareki_to_seireki "平成25〜28年" = "2013〜2016年" :=
  ⟨by decide, by decide, by decide, by decide⟩

/-- C2: `normalize_text` is not idempotent.  On `平成5−6年` (the range
written with the minus sign U+2212, one of the `HYPHEN_CHARS`), the first
pass leaves the era expression alone — `RE_WAREKI_RANGE` only accepts
`[-~〜～]` as separator — and then unifies the dash, producing `平成5-6年`;
the second pass now sees a convertible range and yields `1993-1994年`.
Dash unification runs after era conversion, so one pass does not reach the
fixed point the contract promises. -/
theorem normalize_text_not_idempotent :
    normalize_text "平成5−6年" = "平成5-6年" ∧
    normalize_text (normalize_text "平成5−6年") = "1993-1994年" ∧
    normalize_text (normalize_text "平成5−6年") ≠ normalize_text "平成5−6年" :=
  ⟨by decide, by decide, by decide⟩

/-- C10: `normalize_text` returns its argument unchanged — skipping the
whole pipeline — whenever the input is the empty string or strips to
nothing, in particular whitespace-only inputs are not collapsed or
trimmed. -/
theorem normalize_text_skips_blank (s : String)
    (h : s = "" ∨ pyStrip s.data = []) : normalize_text s = s := by
  unfold normalize_text
  rw [if_pos h]

/-- Witness for C10 at the concrete whitespace-only input `"  "`: it comes
back unchanged, even though the collapse-and-trim steps would have produced
a different string (the empty one). -/
theorem normalize_text_skips_blank_witness :
    normalize_text "  " = "  " ∧
    "  " ≠ "" ∧ String.mk (pyStrip (collapseSpaces "  ".data)) = "" :=
  ⟨normalize_text_skips_blank "  " (Or.inr (by decide)), by decide, by decide⟩

/-! ### Claims C4 and C5 -/

/-- C4: a record for key (row, year) is emitted iff the year was detected
in the headers and at least one of its mapped numeric fields parses to a
present, nonzero value; a repeat slot whose fields are all null or zero
yields no record. -/
theorem build_budget_summary_emission (columns : List String)
    (rows : List (String → Cell)) (ids : Nat → Nat)
    (hinj : Function.Injective ids) (i : Nat) (row : String → Cell)
    (hrow : rows.get? i = some row) (y : Nat) :
    (∃ r ∈ build_budget_summary_table columns rows ids,
        r.business_id = ids i ∧ r.budget_year = y) ↔
    (∃ cols, (y, cols) ∈ budget_col_map columns ∧
        ∃ kc ∈ cols, ∃ v, parse_number (row kc.2) = some v ∧ v ≠ 0) := by
  constructor
  · rintro ⟨r, hr, hbid, hyear⟩
    simp only [build_budget_summary_table, List.mem_flatMap] at hr
    obtain ⟨j, hj, hrj⟩ := hr
    rw [List.mem_range] at hj
    cases hget : rows.get? j with
    | none => rw [hget] at hrj; simp at hrj
    | some rowj =>
      rw [hget] at hrj
      rw [List.mem_filterMap] at hrj
      obtain ⟨yc, hyc, heq⟩ := hrj
      by_cases hd : budgetHasData rowj yc.2 = true
      · rw [if_pos hd] at heq
        injection heq with heq
        have hji : j = i := by
          apply hinj
          rw [← hbid, ← heq]
        subst hji
        have hrr : rowj = row := by
          rw [hget] at hrow; injection hrow
        subst hrr
        have hy : yc.1 = y := by rw [← hyear, ← heq]
        refine ⟨yc.2, ?_, ?_⟩
        · rw [← hy]; exact hyc
        · rw [budgetHasData, List.any_eq_true] at hd
          obtain ⟨kc, hkc, hp⟩ := hd
          refine ⟨kc, hkc, ?_⟩
          cases hv : parse_number (rowj kc.2) with
          | none => rw [hv] at hp; simp at hp
          | some v =>
            rw [hv] at hp
            simp only [decide_eq_true_eq] at hp
            exact ⟨v, rfl, hp⟩
      · rw [if_neg hd] at heq; exact absurd heq (by simp)
  · rintro ⟨cols, hmem, kc, hkc, v, hv, hv0⟩
    have hd : budgetHasData row cols = true := by
      rw [budgetHasData, List.any_eq_true]
      refine ⟨kc, hkc, ?_⟩
      rw [hv]
      simpa using hv0
    obtain ⟨hlt, _⟩ := List.get?_eq_some.mp hrow
    refine ⟨{ business_id := ids i, budget_year := y,
              fields := budgetRecordFields row cols }, ?_, rfl, rfl⟩
    simp only [build_budget_summary_table, List.mem_flatMap]
    refine ⟨i, List.mem_range.mpr hlt, ?_⟩
    rw [hrow, List.mem_filterMap]
    exact ⟨(y, cols), hmem, by rw [if_pos hd]⟩

/-- Witness for C4: on a concrete one-row table whose 2022 initial-budget
cell holds "5", a record with key (1, 2022) is emitted. -/
theorem build_budget_summary_emission_witness :
    ∃ r ∈ build_budget_summary_table budgetColumnsW [budgetRowW] idsW,
      r.business_id = 1 ∧ r.budget_year = 2022 :=
  (build_budget_summary_emission budgetColumnsW [budgetRowW] idsW
      (fun a b h => by simp only [idsW] at h; omega) 0 budgetRowW rfl 2022).mpr
    ⟨[("当初予算", "2022年度-当初予算")], by decide,
      ("当初予算", "2022年度-当初予算"), by decide, 5, by decide, by decide⟩

/-- C5 counterexample: in a Heisei-dominated table the claim resolves
`-05年度-` to 1993, but the code tests mere presence of a Reiwa token, so
it resolves to 2023. -/
theorem bare_year_dominance_counterexample :
    budget_year_of_col (is_reiwa_era mixedEraColumns) "-05年度-当初予算" = some 2023 ∧
    claimed_bare_year_resolution mixedEraColumns 5 = 1993 ∧
    (2023 : Nat) ≠ 1993 :=
  ⟨by decide, by decide, by decide⟩

lemma startsWith_append_left (p q : List Char) :
    ∀ s : List Char, startsWith s (p ++ q) = true → startsWith s p = true := by
  induction p with
  | nil => intro s _; cases s <;> rfl
  | cons c cs ih =>
    intro s h
    cases s with
    | nil => simp [startsWith] at h
    | cons d ds =>
      simp only [List.cons_append, startsWith, Bool.and_eq_true] at h ⊢
      exact ⟨h.1, ih ds h.2⟩

lemma containsSub_append_left (p q : List Char) :
    ∀ s : List Char, containsSub s (p ++ q) = true → containsSub s p = true := by
  intro s
  induction s with
  | nil =>
    intro h
    rw [containsSub] at h ⊢
    split at h
    · rename_i hs
      rw [if_pos (startsWith_append_left p q [] hs)]
    · simp at h
  | cons c cs ih =>
    intro h
    rw [containsSub] at h
    rw [containsSub]
    split at h
    · rename_i hs
      rw [if_pos (startsWith_append_left p q (c :: cs) hs)]
    · have := ih h
      split
      · rfl
      · exact this

/-- C5 amended: a bare token of 20 or more resolves as Heisei regardless of
the table; a smaller bare token is resolved by the mere presence of a
Reiwa token (`令和` anywhere in the concatenated headers), not by
dominance. -/
theorem bare_year_heuristic_amended (columns : List String) :
    (is_reiwa_era columns = true ↔
      containsSub (String.join columns).data "令和".data = true) ∧
    budget_year_of_col (is_reiwa_era columns) "-05年度-当初予算"
      = some (if is_reiwa_era columns then 2023 else 1993) ∧
    budget_year_of_col (is_reiwa_era columns) "-25年度-当初予算" = some 2013 := by
  refine ⟨?_, ?_, ?_⟩
  · rw [is_reiwa_era]
    simp only [Bool.or_eq_true]
    constructor
    · rintro (h | h)
      · exact containsSub_append_left ['令', '和'] ['元', '年', '度'] _ h
      · exact h
    · intro h; exact Or.inr h
  · cases h : is_reiwa_era columns
    · decide
    · decide
  · cases h : is_reiwa_era columns
    · decide
    · decide

/-! ### Claims C6, C7 and C8 -/

/-- C6: the expenditure builder decides the header generation once per
table — precisely the presence of a column carrying both the section token
and the legacy グループ token — and the whole output of the table is then
produced by that single generation's patterns: it equals the output of the
generic builder instantiated with only the legacy classifier, or only the
current classifier, never a mixture. -/
theorem expenditure_generation_decided_once (columns : List String)
    (rows : List (String → Cell)) (ids : Nat → Nat) :
    (is_2014_format columns = true ↔
      ∃ c ∈ columns, containsSub c.data "支出先上位".data = true ∧
        containsSub c.data "グループ".data = true) ∧
    ((is_2014_format columns = true ∧
        build_expenditure_table columns rows ids
          = build_expenditure_table_with expenditure_key_field_2014 columns rows ids) ∨
      (is_2014_format columns = false ∧
        build_expenditure_table columns rows ids
          = build_expenditure_table_with expenditure_key_field_2015 columns rows ids)) := by
  constructor
  · rw [is_2014_format, List.any_eq_true]
    simp only [Bool.and_eq_true]
  · cases h : is_2014_format columns
    · right
      refine ⟨rfl, ?_⟩
      rw [build_expenditure_table]
      have he : (fun col =>
          if is_2014_format columns then expenditure_key_field_2014 col
          else expenditure_key_field_2015 col) = expenditure_key_field_2015 := by
        funext col; rw [h]; simp
      rw [he]
    · left
      refine ⟨rfl, ?_⟩
      rw [build_expenditure_table]
      have he : (fun col =>
          if is_2014_format columns then expenditure_key_field_2014 col
          else expenditure_key_field_2015 col) = expenditure_key_field_2014 := by
        funext col; rw [h]; simp
      rw [he]

/-- C7: the current-generation classifier sends
`支出先上位１０者リスト-A.支払先-3-支出額（百万円）` to the 支出額 field of
block A, sequence 3, and the legacy classifier sends
`支出先上位１０者リスト-グループ-支出先-5` to the 支出先名 field of block
GROUP, sequence 5. -/
theorem expenditure_header_classification_fixtures :
    expenditure_key_field_2015 "支出先上位１０者リスト-A.支払先-3-支出額（百万円）"
      = some ("A-3", some "支出額") ∧
    expenditure_key_field_2014 "支出先上位１０者リスト-グループ-支出先-5"
      = some ("GROUP-5", some "支出先名") :=
  ⟨by decide, by decide⟩

/-- C8: every emitted expenditure record passed the recipient guard — its
recipient-name cell is present and does not strip to a placeholder (`N/A`,
`-`, or empty); groups without such a cell yield no record for the row. -/
theorem expenditure_recipient_guard (columns : List String)
    (rows : List (String → Cell)) (ids : Nat → Nat) :
    ∀ r ∈ build_expenditure_table columns rows ids,
      pd_isna r.name = false ∧
      pyStrip (cellStr r.name).data ≠ "N/A".data ∧
      pyStrip (cellStr r.name).data ≠ "-".data ∧
      pyStrip (cellStr r.name).data ≠ [] := by
  intro r hr
  rw [build_expenditure_table, build_expenditure_table_with] at hr
  rw [List.mem_flatMap] at hr
  obtain ⟨i, _, hri⟩ := hr
  cases hget : rows.get? i with
  | none => rw [hget] at hri; simp at hri
  | some row =>
    rw [hget] at hri
    rw [List.mem_filterMap] at hri
    obtain ⟨kf, _, heq⟩ := hri
    rw [expenditureRecordFor] at heq
    cases hname : lookupField kf.2 "支出先名" with
    | none => rw [hname] at heq; simp at heq
    | some nameCol =>
      rw [hname] at heq
      simp only at heq
      by_cases hg : (pd_isna (row nameCol)
          || pyStrip (cellStr (row nameCol)).data = "N/A".data
          || pyStrip (cellStr (row nameCol)).data = "-".data
          || pyStrip (cellStr (row nameCol)).data = []) = true
      · rw [if_pos hg] at heq; simp at heq
      · rw [if_neg hg] at heq
        injection heq with heq
        subst heq
        simp only [Bool.or_eq_true, decide_eq_true_eq, not_or,
          Bool.not_eq_true] at hg
        exact ⟨hg.1.1.1, hg.1.1.2, hg.1.2, hg.2⟩

/-- Witness for C8: the record emitted from a concrete one-row table indeed
carries a present, non-placeholder recipient name. -/
theorem expenditure_recipient_guard_witness :
    pd_isna expRecW.name = false ∧
    pyStrip (cellStr expRecW.name).data ≠ "N/A".data ∧
    pyStrip (cellStr expRecW.name).data ≠ "-".data ∧
    pyStrip (cellStr expRecW.name).data ≠ [] :=
  expenditure_recipient_guard expColumnsW [expRowW] idsW expRecW (by decide)

lemma assign_row_ids_eq (n : Nat) : ∀ c : Nat,
    assign_row_ids c n = (List.range' c n, c + n) := by
  induction n with
  | zero => intro c; rfl
  | succ m ih =>
    intro c
    have h : c + (m + 1) = c + 1 + m := by omega
    simp only [assign_row_ids, ih (c + 1), List.range'_succ, h]

/-- Closed form of the whole file loop, by one induction over the files. -/
lemma process_foldl (files : List (SourceFile α)) : ∀ st : BatchState α,
    files.foldl process_file st =
      { counter := st.counter + totalReviewRows files,
        acc := st.acc ++ files.filterMap contribOf,
        ids := st.ids ++ idsFrom st.counter files,
        success := st.success + (files.filter isSucceededFile).length,
        failed := st.failed + (files.filter isFailedFile).length } := by
  induction files with
  | nil => intro st; simp [totalReviewRows, idsFrom]
  | cons f fs ih =>
    intro st
    rw [List.foldl_cons, ih]
    cases f <;>
      simp [process_file, assign_row_ids_eq, totalReviewRows, reviewRows,
        idsFrom, contribOf, isFailedFile, isSucceededFile,
        List.filter_cons] <;>
      omega

lemma idsFrom_join (files : List (SourceFile α)) : ∀ c : Nat,
    (idsFrom c files).flatten = List.range' c (totalReviewRows files) := by
  induction files with
  | nil => intro c; simp [idsFrom, totalReviewRows]
  | cons f fs ih =>
    intro c
    cases f <;>
      simp [idsFrom, totalReviewRows, reviewRows, ih, List.range'_append] <;>
      omega

lemma idsFrom_append (xs ys : List (SourceFile α)) : ∀ c : Nat,
    idsFrom c (xs ++ ys) = idsFrom c xs ++ idsFrom (c + totalReviewRows xs) ys := by
  induction xs with
  | nil => intro c; simp [idsFrom, totalReviewRows]
  | cons f fs ih =>
    intro c
    cases f <;>
      simp [idsFrom, totalReviewRows, reviewRows, ih, Nat.add_assoc]

lemma length_filter_add_length_filter_le (p q : β → Bool) (l : List β)
    (h : ∀ x, ¬(p x = true ∧ q x = true)) :
    (l.filter p).length + (l.filter q).length ≤ l.length := by
  induction l with
  | nil => simp
  | cons x xs ih =>
    rw [List.filter_cons, List.filter_cons]
    cases hp : p x <;> cases hq : q x <;> simp <;> try omega
    exact absurd ⟨hp, hq⟩ (h x)

/-! ### Claims C1 and C9 -/

/-- C1: within one fiscal-year batch, the entity IDs assigned by
`process_year_data` — concatenated in file order, each file's in row
order — are exactly the list 1, 2, …, N, where N is the total number of
review-sheet rows reaching the assignment loop: the set `{1..N}` with no
gaps or repeats, and the counter ends at 1 + N.  The statement holds for
every incoming value `c0` of the class-level counter, which is what the
reset at the start of the batch guarantees: a second year's batch starts
at 1 again, whatever the first year left behind. -/
theorem entity_ids_exactly_one_to_N {α : Type} (c0 : Nat)
    (files : List (SourceFile α)) :
    (process_year_data c0 files).ids.flatten
        = List.range' 1 (totalReviewRows files) ∧
    (process_year_data c0 files).ids.flatten.Nodup ∧
    (∀ k, k ∈ (process_year_data c0 files).ids.flatten ↔
        1 ≤ k ∧ k ≤ totalReviewRows files) ∧
    (process_year_data c0 files).counter = 1 + totalReviewRows files := by
  have h := process_foldl files
      ({ counter := 1, acc := [], ids := [], success := 0, failed := 0 } : BatchState α)
  have hids : (process_year_data c0 files).ids = idsFrom 1 files := by
    rw [process_year_data, h]
    simp
  have hflat : (process_year_data c0 files).ids.flatten
      = List.range' 1 (totalReviewRows files) := by
    rw [hids, idsFrom_join]
  refine ⟨hflat, ?_, ?_, ?_⟩
  · rw [hflat]; exact List.nodup_range' 1 (totalReviewRows files)
  · intro k
    rw [hflat, List.mem_range'_1]
    omega
  · rw [process_year_data, h]

/-- C9: the batch loop of `process_year_data` always completes and returns
its counters: `failed` counts exactly the files whose processing raised,
`success` the files that completed, the two never exceed the file count,
and the accumulated output is the in-order concatenation of the per-file
contributions — so an exception in one file is caught by the `except`
branch and every other file's output is untouched, as the last conjunct
states explicitly for a file whose read raises. -/
theorem process_year_data_failure_isolation {α : Type} (c0 : Nat)
    (files : List (SourceFile α)) :
    (process_year_data c0 files).failed
        = (files.filter isFailedFile).length ∧
    (process_year_data c0 files).success
        = (files.filter isSucceededFile).length ∧
    (process_year_data c0 files).success + (process_year_data c0 files).failed
        ≤ files.length ∧
    (process_year_data c0 files).acc = files.filterMap contribOf ∧
    (∀ pre post : List (SourceFile α),
      (process_year_data c0 (pre ++ SourceFile.read_error :: post)).acc
          = (process_year_data c0 (pre ++ post)).acc ∧
      (process_year_data c0 (pre ++ SourceFile.read_error :: post)).ids
          = (process_year_data c0 (pre ++ post)).ids ∧
      (process_year_data c0 (pre ++ SourceFile.read_error :: post)).failed
          = (process_year_data c0 (pre ++ post)).failed + 1) := by
  have hclosed := fun (fl : List (SourceFile α)) => process_foldl fl
      ({ counter := 1, acc := [], ids := [], success := 0, failed := 0 } : BatchState α)
  refine ⟨?_, ?_, ?_, ?_, ?_⟩
  · rw [process_year_data, hclosed files]
    simp
  · rw [process_year_data, hclosed files]
    simp
  · rw [process_year_data, hclosed files]
    have hd : ∀ x : SourceFile α, ¬(isSucceededFile x = true ∧ isFailedFile x = true) := by
      intro x; cases x <;> simp [isFailedFile, isSucceededFile]
    have hle := length_filter_add_length_filter_le isSucceededFile isFailedFile files hd
    simp only
    omega
  · rw [process_year_data, hclosed files]; simp
  · intro pre post
    refine ⟨?_, ?_, ?_⟩
    · rw [process_year_data, process_year_data, hclosed, hclosed]
      simp [List.filterMap_append, List.filterMap_cons, contribOf]
    · rw [process_year_data, process_year_data, hclosed, hclosed]
      simp only
      rw [idsFrom_append, idsFrom_append]
      simp [idsFrom]
    · rw [process_year_data, process_year_data, hclosed, hclosed]
      simp [List.filter_append, List.filter_cons, isFailedFile]
      omega

end RS
